import Mathlib

/-!
Shallow embedding of the wa-reminder-backend repository
(src/models.py, src/app.py, src/help.py) and verification of the
frozen claims about its specification.

The database state is modelled as an in-memory `Store` holding the rows
of the `authors` and `books` tables (src/models.py).  SQLAlchemy /
Python runtime behaviour that decides a claim is modelled explicitly and
documented at the definition it affects:
* `models.get_session` is an `@asynccontextmanager`; entering it with a
  plain `with` statement (as `Mutation.add_book` does at src/app.py:93)
  raises `TypeError` before the body runs.
* `select(models)` (src/app.py:77) passes the `models` *module* to
  `select`, which SQLAlchemy rejects with `ArgumentError`.
* `models.Author.id in keys` (src/app.py:131) is a Python membership
  test: it calls `bool()` on the SQLAlchemy comparison
  `Author.id == k`, which raises `TypeError` for every element, so the
  test raises whenever `keys` is nonempty.
* `models.Book(name=name, author_id=db_author)` (src/app.py:102) binds
  the `Author` ORM object, not its integer id, to the Integer column;
  sqlite cannot bind such a parameter and the commit fails.
-/

/-- Python / SQLAlchemy runtime errors that the translated code can raise. -/
inductive PyError where
  | typeError
  | argumentError
  | interfaceError
  deriving DecidableEq, Repr

/-- Row of the `authors` table (src/models.py:14-25): integer primary key
`id` and string `name`. -/
structure DBAuthor where
  id : Nat
  name : String
  deriving DecidableEq, Repr

/-- Row of the `books` table (src/models.py:28-36): integer primary key
`id`, string `name`, nullable integer foreign key `author_id`
referencing `authors.id`. -/
structure DBBook where
  id : Nat
  name : String
  author_id : Option Nat
  deriving DecidableEq, Repr

/-- The in-memory model of the sqlite database: the two tables plus the
autoincrement counters that assign primary keys on insert. -/
structure Store where
  authors : List DBAuthor
  books : List DBBook
  nextAuthorId : Nat
  nextBookId : Nat
  deriving DecidableEq, Repr

/-- A `Book` row together with its `author` relationship attribute
(src/models.py:35-36, `lazy="joined"`): the resolved `Author` row when
one is linked and loaded, else `None`. -/
structure BookRow where
  id : Nat
  name : String
  author : Option DBAuthor
  deriving DecidableEq, Repr

/-- API-facing `Author` shape (src/app.py:24-27): `strawberry.ID` renders
the integer id as a string. -/
structure APIAuthor where
  id : String
  name : String
  deriving DecidableEq, Repr

/-- API-facing `Book` shape (src/app.py:34-38) with an optional `author`
field defaulting to `None`. -/
structure APIBook where
  id : String
  name : String
  author : Option APIAuthor
  deriving DecidableEq, Repr

/-- Model of `Author.marshal` (src/app.py:29-31): `id` becomes `str(model.id)`,
`name` is copied. -/
def marshalAuthor (a : DBAuthor) : APIAuthor :=
  { id := toString a.id, name := a.name }

/-- Model of `Book.marshal` (src/app.py:40-46): `id` becomes `str(model.id)`,
`name` is copied, and `author` is `Author.marshal(model.author) if
model.author else None` — an `Author` object is always truthy, so this
is exactly `Option.map`. -/
def marshalBook (r : BookRow) : APIBook :=
  { id := toString r.id, name := r.name, author := r.author.map marshalAuthor }

/-- The `AddAuthorResponse` union (src/app.py:68-69): either the created
`Author` shape or the `AuthorExists` error type. -/
inductive AddAuthorResponse where
  | author (a : APIAuthor)
  | authorExists
  deriving DecidableEq, Repr

/-- The `AddBookResponse` union (src/app.py:66-67): the created `Book`
shape, `AuthorNotFound`, or `AuthorNameMissing`. -/
inductive AddBookResponse where
  | book (b : APIBook)
  | authorNotFound
  | authorNameMissing
  deriving DecidableEq, Repr

/-- The two ways Python can enter a context manager. -/
inductive WithKind where
  | plainWith
  | asyncWith
  deriving DecidableEq, Repr

/-- Entering `models.get_session()` (src/models.py:52-59).  It is
declared with `@asynccontextmanager`, so it implements only the
asynchronous context-manager protocol: `async with` enters it and a
plain `with` raises `TypeError` at the `with` statement. -/
def enter_get_session : WithKind → Except PyError Unit
  | WithKind.plainWith => Except.error PyError.typeError
  | WithKind.asyncWith => Except.ok ()

/-- Model of `Mutation.add_author` (src/app.py:107-117).  It enters the session
with `async with` (line 109), selects the first author whose `name`
equals the argument, returns `AuthorExists()` when one exists, and
otherwise inserts `Author(name=name)` (the autoincrement key is
assigned at commit) and returns the marshalled new author. -/
def add_author (st : Store) (name : String) :
    Except PyError (AddAuthorResponse × Store) :=
  match enter_get_session WithKind.asyncWith with
  | Except.error e => Except.error e
  | Except.ok _ =>
    match st.authors.find? (fun a => a.name = name) with
    | some _ => Except.ok (AddAuthorResponse.authorExists, st)
    | none =>
      let db_author : DBAuthor := { id := st.nextAuthorId, name := name }
      Except.ok (AddAuthorResponse.author (marshalAuthor db_author),
        { st with
            authors := st.authors ++ [db_author]
            nextAuthorId := st.nextAuthorId + 1 })

/-- The authors table after a call to `add_author` (the table is
unchanged when the call raises). -/
def authorsAfterAdd (st : Store) (name : String) : List DBAuthor :=
  match add_author st name with
  | Except.ok (_, st2) => st2.authors
  | Except.error _ => st.authors

/-- Python truthiness of `author_name` in `if not author_name`
(src/app.py:95): true for `None` and for the empty string. -/
def pyFalsyOptStr : Option String → Bool
  | none => true
  | some s => s.isEmpty

/-- The in-memory `Book` object built at src/app.py:102 before commit.
The source wires `author_id=db_author`, i.e. the `Author` ORM *object*,
into the Integer foreign-key column, so the field is modelled by the
value the Python attribute actually receives. -/
inductive PyFKValue where
  | asInt (n : Nat)
  | asAuthorObj (a : DBAuthor)
  deriving DecidableEq, Repr

structure PendingBook where
  id : Nat
  name : String
  author_id : Option PyFKValue
  deriving DecidableEq, Repr

/-- Committing a pending book (src/app.py:103-104).  sqlite can bind an
integer or NULL to the `author_id` column; binding the `Author` object
that src/app.py:102 assigned raises `InterfaceError` at commit, and the
row is not inserted. -/
def commitBook (st : Store) (b : PendingBook) : Except PyError Store :=
  match b.author_id with
  | some (PyFKValue.asAuthorObj _) => Except.error PyError.interfaceError
  | some (PyFKValue.asInt n) =>
    Except.ok { st with
      books := st.books ++ [{ id := b.id, name := b.name, author_id := some n }]
      nextBookId := st.nextBookId + 1 }
  | none =>
    Except.ok { st with
      books := st.books ++ [{ id := b.id, name := b.name, author_id := none }]
      nextBookId := st.nextBookId + 1 }

/-- Body of `Mutation.add_book` (src/app.py:94-105), the code inside the
`with` block: return `AuthorNameMissing()` when `author_name` is falsy;
select the first author with that name and return `AuthorNotFound()`
when there is none; otherwise build `Book(name=name,
author_id=db_author)` — the ORM object, see `PyFKValue` — and commit.
Assigning `author_id` does not populate the `author` relationship
attribute, so the freshly built object's `author` is `None`. -/
def add_book_body (st : Store) (name : String) (author_name : Option String) :
    Except PyError (AddBookResponse × Store) :=
  if pyFalsyOptStr author_name then
    Except.ok (AddBookResponse.authorNameMissing, st)
  else
    match st.authors.find? (fun a => some a.name = author_name) with
    | none => Except.ok (AddBookResponse.authorNotFound, st)
    | some db_author =>
      let db_book : PendingBook :=
        { id := st.nextBookId, name := name,
          author_id := some (PyFKValue.asAuthorObj db_author) }
      match commitBook st db_book with
      | Except.error e => Except.error e
      | Except.ok st2 =>
        Except.ok (AddBookResponse.book
          (marshalBook { id := db_book.id, name := db_book.name, author := none }),
          st2)

/-- Model of `Mutation.add_book` (src/app.py:91-105).  Line 93 enters the session
with a plain `with models.get_session() as s:` although `get_session`
is an async context manager, so every call raises `TypeError` before
the body runs. -/
def add_book (st : Store) (name : String) (author_name : Option String) :
    Except PyError (AddBookResponse × Store) :=
  match enter_get_session WithKind.plainWith with
  | Except.error e => Except.error e
  | Except.ok _ => add_book_body st name author_name

/-- Tutorial variant, src/help.py:14: the module-level mutable list
`authors`, modelled as explicitly threaded state. -/
def helpAddAuthor (st : List String) (name : String) : String × List String :=
  (name, st ++ [name])

/-- Model of `Query.all_authors` (src/help.py:17-22): returns the module-level
list as is. -/
def helpAllAuthors (st : List String) : List String := st

/-- The module-level list after a sequence of `add_author` calls
starting from the initial empty list (src/help.py:14). -/
def helpRun (names : List String) : List String :=
  names.foldl (fun st n => (helpAddAuthor st n).2) []

/-- One executed statement `select(Book).where(Book.author_id == key)`
(src/app.py:122-123): the books whose foreign key equals `key`. -/
def selectBooksByAuthorId (st : Store) (key : Nat) : List DBBook :=
  st.books.filter (fun b => b.author_id = some key)

/-- Model of `load_books_by_author` (src/app.py:120-126): builds the list
`all_queries` with one SELECT per element of `keys` and executes each
of them in turn, collecting the per-key result lists.  The second
component is the number of store queries the call executes — exactly
`all_queries.length`, i.e. one per key, not one bulk call. -/
def load_books_by_author (st : Store) (keys : List Nat) :
    List (List DBBook) × Nat :=
  let all_queries := keys.map (fun key => selectBooksByAuthorId st key)
  (all_queries, all_queries.length)

/-- Strawberry `DataLoader` key coalescing: `load` calls issued in one
window are gathered and, with the default per-request cache, duplicated
keys join the pending batch only once, so the batch function receives
the distinct keys in first-request order. -/
def dedupKeys (requested : List Nat) : List Nat :=
  requested.foldl (fun acc k => if k ∈ acc then acc else acc ++ [k]) []

/-- Number of store queries one coalescing window of the
`books_by_author` loader (src/app.py:141) executes for the `load`
requests of that window: the `DataLoader` dispatches
`load_books_by_author` once with the deduplicated key set, and that
function then queries the store once per key. -/
def booksByAuthorWindowStoreCalls (st : Store) (requested : List Nat) : Nat :=
  (load_books_by_author st (dedupKeys requested)).2

/-- Result entries `load_author_by_book` can place in its output list:
`Author` rows from the select, or the empty list that
`data.append([])` pushes (src/app.py:133-134). -/
inductive LoadEntry where
  | author (a : DBAuthor)
  | emptyList
  deriving DecidableEq, Repr

/-- The Python expression `models.Author.id in keys` (src/app.py:131).
This is a membership test on the Python list, not a SQL `IN` clause:
for each element `k` it evaluates `bool(Author.id == k)`, and
SQLAlchemy column comparisons raise `TypeError` from `__bool__`
("Boolean value of this clause is not defined").  Hence it raises for
every nonempty `keys` and evaluates to `False` on the empty list. -/
def pyInAuthorIdColumn (keys : List Nat) : Except PyError Bool :=
  match keys with
  | [] => Except.ok false
  | _ :: _ => Except.error PyError.typeError

/-- Model of `load_author_by_book` (src/app.py:129-135): evaluates the `where`
argument `Author.id in keys` (raising `TypeError` whenever `keys` is
nonempty), executes the select — `where(False)` returns no rows — and
appends an empty list to `data` when `data` is empty. -/
def load_author_by_book (st : Store) (keys : List Nat) :
    Except PyError (List LoadEntry) :=
  match pyInAuthorIdColumn keys with
  | Except.error e => Except.error e
  | Except.ok cond =>
    let data := if cond then st.authors.map LoadEntry.author else []
    let data := if data.isEmpty then data ++ [LoadEntry.emptyList] else data
    Except.ok data

/-- What `Query.books` (src/app.py:77) passes to `select`: the name
`models` denotes the imported *module*, not the `models.Book` class
(compare `select(models.Author)` in `Query.authors`, line 84). -/
inductive SelectArg where
  | modulesObject
  | bookTable
  | authorTable
  deriving DecidableEq, Repr

/-- Building a SELECT statement: SQLAlchemy accepts mapped classes but
rejects a module object with `ArgumentError` ("Column expression or
FROM clause expected"). -/
def buildSelect (arg : SelectArg) : Except PyError SelectArg :=
  match arg with
  | SelectArg.modulesObject => Except.error PyError.argumentError
  | a => Except.ok a

/-- Insertion of a book into a list sorted by `name` ascending. -/
def insertByName (b : DBBook) : List DBBook → List DBBook
  | [] => [b]
  | c :: cs => if b.name ≤ c.name then b :: c :: cs else c :: insertByName b cs

/-- Model of `order_by(models.Book.name)`: the books table sorted by name
ascending. -/
def sortBooksByName (l : List DBBook) : List DBBook :=
  l.foldr insertByName []

/-- The `lazy="joined"` relationship load (src/models.py:35-36): a book
row carries the author row its foreign key references, when one
exists. -/
def joinedRow (st : Store) (b : DBBook) : BookRow :=
  { id := b.id, name := b.name,
    author := b.author_id.bind (fun i => st.authors.find? (fun a => a.id = i)) }

/-- Model of `Query.books` (src/app.py:74-79): builds
`select(models).order_by(models.Book.name)` — passing the `models`
module, which `select` rejects with `ArgumentError`, so every call
raises.  The unreachable success branch is the translation of lines
78-79: execute, and marshal each row (authors joined-eager-loaded). -/
def queryBooks (st : Store) : Except PyError (List APIBook) :=
  match buildSelect SelectArg.modulesObject with
  | Except.error e => Except.error e
  | Except.ok _ =>
    Except.ok ((sortBooksByName st.books).map
      (fun b => marshalBook (joinedRow st b)))

/-!
Theorems settling the claims.
-/

/-- Helper for claim C10: folding the tutorial `add_author` over a list
of names appends them, in call order, to the accumulated module-level
list. -/
theorem helpRun_go (names : List String) (acc : List String) :
    names.foldl (fun st n => (helpAddAuthor st n).2) acc = acc ++ names := by
  induction names generalizing acc with
  | nil => simp
  | cons x xs ih =>
    rw [List.foldl_cons, ih]
    simp [helpAddAuthor]

/-- Claim C1 (code bug), evaluated at the failing input: a coalescing
window of the `books_by_author` loader requesting keys 1, 2, 1
deduplicates to the key set {1, 2}, and `load_books_by_author` then
executes two store queries — one SELECT per key — not the single bulk
call the claim requires. -/
theorem c1_two_keys_two_store_queries :
    booksByAuthorWindowStoreCalls ⟨[], [], 1, 1⟩ [1, 2, 1] = 2 ∧
      booksByAuthorWindowStoreCalls ⟨[], [], 1, 1⟩ [1, 2, 1] ≠ 1 := by
  constructor <;> decide

/-- Claim C2 (code bug), evaluated at the failing input: with author
(1, "Rowling") stored, `add_book("Chamber", "Rowling")` raises
`TypeError` at the plain `with models.get_session()` statement instead
of creating a Book; and even its body, taken alone, fails at commit
with `InterfaceError` because line 102 binds the Author object — not
its integer id — to the `author_id` column.  No Book referencing the
author's id is ever created or returned. -/
theorem c2_add_book_success_path_raises :
    add_book ⟨[⟨1, "Rowling"⟩], [], 2, 1⟩ "Chamber" (some "Rowling")
        = Except.error PyError.typeError ∧
      add_book_body ⟨[⟨1, "Rowling"⟩], [], 2, 1⟩ "Chamber" (some "Rowling")
        = Except.error PyError.interfaceError := by
  constructor <;> rfl

/-- Claim C3 (confirmed): `add_author` returns the `AuthorExists`
variant, leaving the store unchanged, exactly when an author with the
given name is already stored; otherwise it appends a new author bearing
that name (with the next autoincrement id) and returns it marshalled. -/
theorem c3_add_author_spec (st : Store) (name : String) :
    (add_author st name = Except.ok (AddAuthorResponse.authorExists, st)
      ↔ ∃ a ∈ st.authors, a.name = name)
    ∧ ((∀ a ∈ st.authors, a.name ≠ name) →
      add_author st name = Except.ok
        (AddAuthorResponse.author (marshalAuthor ⟨st.nextAuthorId, name⟩),
          { st with
              authors := st.authors ++ [⟨st.nextAuthorId, name⟩]
              nextAuthorId := st.nextAuthorId + 1 })) := by
  rcases hf : st.authors.find? (fun a => a.name = name) with _ | a
  · constructor
    · constructor
      · intro h
        simp [add_author, enter_get_session, hf] at h
      · rintro ⟨a, ha, hname⟩
        rw [List.find?_eq_none] at hf
        exact absurd hname (by simpa using hf a ha)
    · intro _
      simp [add_author, enter_get_session, hf]
  · have hmem := List.mem_of_find?_eq_some hf
    have hname : a.name = name := by simpa using List.find?_some hf
    constructor
    · constructor
      · intro _
        exact ⟨a, hmem, hname⟩
      · intro _
        simp [add_author, enter_get_session, hf]
    · intro h
      exact absurd hname (h a hmem)

/-- Witness for claim C3: on the empty store, `add_author "Tolkien"`
creates and returns the author (1, "Tolkien"). -/
theorem c3_add_author_spec_witness :
    add_author ⟨[], [], 1, 1⟩ "Tolkien" = Except.ok
      (AddAuthorResponse.author (marshalAuthor ⟨1, "Tolkien"⟩),
        ⟨[⟨1, "Tolkien"⟩], [], 2, 1⟩) :=
  (c3_add_author_spec ⟨[], [], 1, 1⟩ "Tolkien").2 (by simp)

/-- Claim C4 (code bug), evaluated at the failing input: a batch of the
`author_by_book` loader with key 7 (an id matched by no author, so by
the claim `load(7)` should resolve to an empty value) raises
`TypeError`, because `models.Author.id in keys` is a Python membership
test over the key list that calls `bool()` on a SQLAlchemy column
comparison. -/
theorem c4_load_author_by_book_raises :
    load_author_by_book ⟨[⟨1, "Tolkien"⟩], [⟨1, "Hobbit", some 1⟩], 2, 2⟩ [7]
      = Except.error PyError.typeError := rfl

/-- Claim C5 (code bug), evaluated at the failing input: on a store with
three books sharing one author, the `books` query raises
`ArgumentError` — line 77 passes the `models` module itself to
`select` — instead of returning the name-sorted book list. -/
theorem c5_query_books_raises :
    queryBooks ⟨[⟨1, "Rowling"⟩],
        [⟨1, "Chamber", some 1⟩, ⟨2, "Stone", some 1⟩, ⟨3, "Azkaban", some 1⟩],
        2, 4⟩
      = Except.error PyError.argumentError := rfl

/-- Claim C6 (code bug), evaluated at the failing inputs of spec
scenarios 2 and 3: `add_book("Hobbit", None)` and
`add_book("Hobbit", "Unknown")` raise `TypeError` at the plain
`with models.get_session()` statement, so neither failure variant
(`AuthorNameMissing`, `AuthorNotFound`) is ever returned — the store is
left unchanged only because the whole call errors out. -/
theorem c6_add_book_failure_paths_raise :
    add_book ⟨[], [], 1, 1⟩ "Hobbit" none = Except.error PyError.typeError ∧
      add_book ⟨[], [], 1, 1⟩ "Hobbit" (some "Unknown")
        = Except.error PyError.typeError := by
  constructor <;> rfl

/-- Counterexample to claim C7: calling `add_author` with the empty
string on the empty store stores an author whose name is the empty
string — the mutation path has no non-emptiness validation. -/
theorem c7_counterexample :
    ∃ a ∈ authorsAfterAdd ⟨[], [], 1, 1⟩ "", a.name = "" := by
  refine ⟨⟨1, ""⟩, ?_, rfl⟩
  decide

/-- Claim C7 as amended: `add_author` validates only uniqueness by name;
whenever no author with the supplied name exists it stores an author
with exactly that name — the empty string included — so the catalog can
contain an empty-named author. -/
theorem c7_amended_no_emptiness_check (st : Store) (name : String)
    (h : ∀ a ∈ st.authors, a.name ≠ name) :
    (⟨st.nextAuthorId, name⟩ : DBAuthor) ∈ authorsAfterAdd st name := by
  have hf : st.authors.find? (fun a => a.name = name) = none := by
    rw [List.find?_eq_none]
    intro a ha
    simpa using h a ha
  simp [authorsAfterAdd, add_author, enter_get_session, hf]

/-- Witness for the amended claim C7: the empty name is accepted on the
empty store. -/
theorem c7_amended_witness :
    (⟨1, ""⟩ : DBAuthor) ∈ authorsAfterAdd ⟨[], [], 1, 1⟩ "" :=
  c7_amended_no_emptiness_check ⟨[], [], 1, 1⟩ "" (by simp)

/-- Claim C8 (confirmed): marshalling a book row with no linked author
is a total operation (the embedding of `Book.marshal` never raises) and
yields the API shape with the same name, the id rendered as a string,
and a `None` author field. -/
theorem c8_marshal_book_without_author (i : Nat) (n : String) :
    marshalBook ⟨i, n, none⟩ = ⟨toString i, n, none⟩ := rfl

/-- Claim C9 (confirmed): `Author.marshal` and `Book.marshal` translate
to pure functions of the stored row — they read only the row's
attributes and build a fresh shape — so marshalling the same stored
entity twice yields identical API shapes. -/
theorem c9_marshal_deterministic (a : DBAuthor) (r : BookRow) :
    marshalAuthor a = marshalAuthor a ∧ marshalBook r = marshalBook r :=
  ⟨rfl, rfl⟩

/-- Claim C10 (confirmed): the tutorial `add_author` returns its input
name unchanged and appends it — unconditionally, duplicates included —
to the module-level list, and `all_authors` after any sequence of
`add_author` calls returns exactly the names added, in call order. -/
theorem c10_help_tutorial_spec (names : List String) (st : List String)
    (n : String) :
    helpAddAuthor st n = (n, st ++ [n]) ∧
      helpAllAuthors (helpRun names) = names := by
  refine ⟨rfl, ?_⟩
  simp [helpAllAuthors, helpRun, helpRun_go]
